import Mathlib

/-!
Verification development for the AI-QA training portal (`src/app.py`).

The portal has two verifiable pieces:

* the slide-content resolver — `PresentationGenerator.generate_slide`
  dispatching to `generate_introduction_slide`,
  `generate_module_overview_slide`, `generate_hands_on_slide` and
  `generate_conclusion_slide`, plus the UI-level wrapper
  `generate_presentation_slide`;
* the progress store — `load_user_progress`, `save_user_progress` and
  `update_user_progress`.

This file shallowly embeds both, directly from the Python source:

* Python dicts holding module metadata become `ModuleData` records with
  optional fields (`dict.get` with a default becomes `Option.getD`), and a
  dict's truthiness (`if not module_data`) becomes `pyTruthy`, which is
  `false` exactly for the absent value and the empty record `{}`.
* Python's signed list indexing (`slides[slide_index]`) becomes `pyGet`,
  which wraps negative indices in `[-len, -1]` and reports `IndexError`
  (as `PyErr.indexError`) below `-len`, exactly as CPython does.
* Exceptions become `Except PyErr`; code that cannot raise stays a plain
  function.
* The f-string slide literals are transcribed verbatim (including the
  stray indentation the Python triple-quoted strings carry), with each
  interpolation hole turned into string concatenation.
* In `generate_module_overview_slide` the Python `content` dict literal is
  built eagerly, so the `config['assessment_criteria'][...]` lookup in the
  index-4 entry runs (and can raise `KeyError`) on every call with truthy
  module data, whatever the requested index; the embedding hoists that
  lookup before the index dispatch to preserve this.
* The progress document on disk is modelled as `Option Json` (`none` for a
  missing or unreadable file, which the bare `except:` of
  `load_user_progress` collapses to the default record); `json.dump` /
  `json.load` are the external verbatim store the spec assigns to the
  persistence layer, so `save_user_progress` yields the document that the
  next `load_user_progress` returns.
* `datetime.now().isoformat()` is an external input, passed as the `now`
  argument of `update_user_progress`; the module-level globals `config`
  and `user_progress` are passed explicitly.
* Python float arithmetic on `current_progress` is modelled as exact
  rational arithmetic (`ℚ`).
-/

/-- A module record from the `modules` table of `module_config.json`, and
equally any dict passed as `module_data`: every field the resolver reads
through `module_data.get(...)` is optional, so one type covers full
records, partial dicts and the empty dict `{}`. -/
structure ModuleData where
  title : Option String
  description : Option String
  topics : Option (List String)
  hands_on : Option Bool
  difficulty : Option String
deriving DecidableEq, Repr

/-- The empty Python dict `{}`, as passed by `generate_presentation_slide`
when the selected module id is unknown. -/
def emptyModule : ModuleData :=
  { title := none, description := none, topics := none, hands_on := none,
    difficulty := none }

/-- One entry of the `assessment_criteria` table: the three integer
percentage weights interpolated into the Assessment Criteria slide. -/
structure Criteria where
  understanding : Int
  application : Int
  problem_solving : Int
deriving DecidableEq, Repr

/-- One entry of the `presentation_templates` table: the ordered sequence
of slide titles (`self.templates[template_type]['slides']`). -/
structure Template where
  slides : List String
deriving DecidableEq, Repr

/-- The configuration loaded by `load_config` from `module_config.json`,
with its three top-level tables. JSON objects are association lists with
distinct keys; `List.lookup` is the dict lookup. -/
structure Config where
  modules : List (String × ModuleData)
  presentation_templates : List (String × Template)
  assessment_criteria : List (String × Criteria)
deriving DecidableEq, Repr

/-- The Python exceptions the embedded code can raise: `IndexError` from
`slides[slide_index]` and `KeyError` from
`config['assessment_criteria'][...]`. -/
inductive PyErr where
  | indexError
  | keyError (key : String)
deriving DecidableEq, Repr

/-- Truthiness of the optional `module_data` argument (`if not
module_data`): `None` and the empty dict are falsy, a dict with at least
one field is truthy. -/
def pyTruthy : Option ModuleData → Bool
  | none => false
  | some md =>
      md.title.isSome || md.description.isSome || md.topics.isSome ||
        md.hands_on.isSome || md.difficulty.isSome

/-- Python list indexing `l[i]` with a signed index: nonnegative indices
read left to right, indices in `[-len, -1]` wrap from the right, anything
below `-len` is an `IndexError` (`none`). -/
def pyGet (l : List String) (i : Int) : Option String :=
  if 0 ≤ i then l.get? i.toNat
  else if -i ≤ (l.length : Int) then l.get? (l.length - (-i).toNat)
  else none

/-- Python's `str.title()` for the ASCII text this code feeds it: a letter
is uppercased when it does not follow a letter and lowercased when it
does. -/
def pyStrTitle (s : String) : String :=
  (s.data.foldl
    (fun (acc : List Char × Bool) c =>
      if c.isAlpha then
        (acc.1 ++ [if acc.2 then c.toLower else c.toUpper], true)
      else (acc.1 ++ [c], false))
    ([], false)).1.asString

/-- Slide 0 of `generate_introduction_slide` (`src/app.py:77`). -/
def generate_introduction_slide_0 (title : String) : String :=
  "# 🚀 " ++ title ++ "\n            \nWelcome to the **AI-Driven Quality Assurance Professional Development Portal**!\n\n## What You'll Experience:\n- 🎯 **Practical AI Integration** in QA workflows\n- 🛠️ **Hands-on Projects** with real-world applications\n- 📊 **Template-driven Learning** with structured presentations\n- 🤖 **AI Tools and Techniques** specific to QA professionals\n\n## Our Approach:\n- **Theory + Practice**: Balance conceptual understanding with practical implementation\n- **Personalized Learning**: Adapt to your experience level and interests\n- **Community Focus**: Connect with fellow QA professionals exploring AI\n\nReady to transform your QA practice with AI? Let's begin! 🌟"

/-- Slide 1 of `generate_introduction_slide` (`src/app.py:94`). -/
def generate_introduction_slide_1 (title : String) : String :=
  "# 📚 " ++ title ++ "\n            \n## Your Personalized Learning Path\n\n### 🎯 Core Modules Available:\n1. **Programming/Building Projects with AI** - Build automation tools and chatbots\n2. **Best Practices with AI** - Learn effective and safe AI usage\n3. **QA + AI Integration** - Advanced testing process automation\n4. **Knowledge Bases with AI** - Create intelligent QA assistants\n5. **AI Compliance & Governance** - Ethical and legal frameworks\n6. **Essential AI Concepts** - MCP, RAG, Fine-Tuning basics\n\n### 🛤️ Learning Paths:\n- **Beginner**: Start with AI fundamentals and best practices\n- **Intermediate**: Focus on practical integration and tools\n- **Advanced**: Deep dive into custom solutions and governance\n\n### 📊 Progress Tracking:\n- Real-time progress monitoring\n- Skill acquisition tracking\n- Hands-on project portfolio\n- Personalized recommendations"
/-- Slide 2 of `generate_introduction_slide` (`src/app.py:117`). -/
def generate_introduction_slide_2 (title : String) : String :=
  "# 🛠️ " ++ title ++ "\n            \n## Essential Tools & Platforms\n\n### 🤖 AI Platforms:\n- **OpenAI GPT Models** - For text generation and analysis\n- **Langchain** - For building AI applications\n- **Vector Databases** - ChromaDB, FAISS for knowledge bases\n- **Gradio** - For creating interactive interfaces\n\n### 🔧 QA-Specific Tools:\n- **Test Automation Frameworks** - Selenium, Playwright integration\n- **API Testing** - Postman, REST Assured with AI enhancement\n- **Performance Testing** - JMeter with AI-driven analysis\n- **Bug Tracking** - Jira integration with AI insights\n\n### 📚 Resources:\n- **Documentation** - Interactive guides and tutorials\n- **Code Repositories** - GitHub templates and examples\n- **Community Forums** - Peer support and knowledge sharing\n- **Certification Paths** - Industry-recognized credentials\n\n### 🔐 Setup Requirements:\n- Python 3.8+ environment\n- API keys for AI services\n- Development tools installation\n- Access to testing environments"

/-- Slide 3 of `generate_introduction_slide` (`src/app.py:145`). -/
def generate_introduction_slide_3 (title : String) : String :=
  "# 🎯 " ++ title ++ "\n            \n## What You'll Achieve\n\n### 🚀 Immediate Outcomes:\n- **Automate repetitive QA tasks** using AI tools\n- **Generate intelligent test cases** from requirements\n- **Analyze bugs and failures** with AI assistance\n- **Create custom QA chatbots** for your team\n\n### 🎓 Skill Development:\n- **Prompt Engineering** for QA-specific tasks\n- **AI Model Integration** in testing workflows\n- **Knowledge Base Creation** for QA documentation\n- **Compliance Understanding** for AI in enterprise\n\n### 📈 Career Advancement:\n- **Enhanced Productivity** - Automate routine tasks\n- **Strategic Value** - Become an AI-savvy QA professional\n- **Innovation Leadership** - Drive AI adoption in your organization\n- **Continuous Learning** - Stay ahead of industry trends\n\n### 🌟 Long-term Impact:\n- Transform from traditional QA to AI-enhanced QA\n- Lead digital transformation initiatives\n- Mentor others in AI adoption\n- Contribute to the future of quality assurance\n\n**Ready to start your AI-QA journey?** 🚀"

/-- Slide 0 of `generate_module_overview_slide` (`src/app.py:183`). -/
def generate_module_overview_slide_0 (title : String) (md : ModuleData) : String :=
  "# 📖 " ++ title ++ ": " ++ (md.title.getD "Module") ++ "\n            \n## Module Overview\n" ++ (md.description.getD "No description available") ++ "\n\n### 🎯 Target Audience:\n- **Difficulty Level**: " ++ (pyStrTitle (md.difficulty.getD "Not specified")) ++ "\n- **Hands-on Component**: " ++ (if md.hands_on.getD false then "✅ Yes" else "❌ No") ++ "\n- **Prerequisites**: Basic understanding of QA processes\n\n### 📊 Module Structure:\n- **Duration**: 2-4 hours (flexible pacing)\n- **Format**: Interactive presentations + practical exercises\n- **Assessment**: Hands-on projects and knowledge checks\n- **Certification**: Module completion certificate\n\n### 🔧 What You'll Need:\n- Python development environment\n- Access to AI APIs (OpenAI, etc.)\n- Basic command line familiarity\n- Willingness to experiment and learn!"

/-- Slide 1 of `generate_module_overview_slide` (`src/app.py:205`). -/
def generate_module_overview_slide_1 (title : String) : String :=
  "# 🎯 " ++ title ++ "\n            \n## Learning Objectives\n\nBy the end of this module, you will be able to:\n\n### 📚 Understand:\n- Core concepts and terminology\n- Real-world applications in QA\n- Benefits and limitations\n- Best practices and common pitfalls\n\n### 🛠️ Apply:\n- Practical implementation techniques\n- Integration with existing workflows\n- Troubleshooting and optimization\n- Quality assurance principles\n\n### 🚀 Create:\n- Custom solutions for your QA needs\n- Automated testing enhancements\n- AI-powered QA tools\n- Documentation and knowledge sharing\n\n### 🔍 Evaluate:\n- Effectiveness of AI solutions\n- Quality metrics and KPIs\n- Risk assessment and mitigation\n- Continuous improvement strategies\n\n*These objectives align with industry standards and career advancement requirements.*"

/-- Slide 2 of `generate_module_overview_slide` (`src/app.py:237`). -/
def generate_module_overview_slide_2 (title : String) (md : ModuleData) : String :=
  "# 📋 " ++ title ++ "\n            \n## Key Topics Covered\n\n### 🔍 Deep Dive Topics:\n" ++ (String.intercalate "\n" ((md.topics.getD []).map (fun topic => "- **" ++ topic ++ "**"))) ++ "\n\n### 🎯 Focus Areas:\n- **Theoretical Foundation**: Understanding core concepts\n- **Practical Application**: Real-world implementation\n- **Industry Standards**: Best practices and compliance\n- **Future Trends**: Emerging technologies and approaches\n\n### 📊 Content Structure:\n1. **Introduction & Context** (15 minutes)\n2. **Core Concepts** (30 minutes)\n3. **Hands-on Practice** (60 minutes)\n4. **Advanced Techniques** (30 minutes)\n5. **Assessment & Review** (15 minutes)\n\n### 🔗 Integration Points:\n- Connection to other modules\n- Cross-functional applications\n- Industry use cases\n- Career development paths\n\n*Each topic includes practical examples and real-world case studies.*"

/-- Slide 3 of `generate_module_overview_slide` (`src/app.py:265`). -/
def generate_module_overview_slide_3 (title : String) : String :=
  "# 🛠️ " ++ title ++ "\n            \n## Hands-on Activities\n\n### 🎮 Interactive Exercises:\n- **Live Coding Sessions** - Build AI tools together\n- **Problem-Solving Challenges** - Real QA scenarios\n- **Peer Collaboration** - Group projects and discussions\n- **Tool Exploration** - Hands-on with latest AI platforms\n\n### 🔨 Practical Projects:\n1. **Mini-Project**: Quick implementation (30 minutes)\n2. **Main Project**: Comprehensive solution (90 minutes)\n3. **Extension Challenge**: Advanced features (optional)\n\n### 🎯 Learning Methodologies:\n- **Learning by Doing**: Immediate application\n- **Guided Discovery**: Structured exploration\n- **Peer Learning**: Collaborative problem-solving\n- **Reflection**: Understanding and improvement\n\n### 📱 Tools & Resources:\n- **Interactive Notebooks** - Jupyter/Colab environments\n- **Code Repositories** - GitHub templates and examples\n- **Testing Environments** - Safe spaces to experiment\n- **Documentation** - Step-by-step guides\n\n*All activities are designed for practical application in your work environment.*"

/-- Slide 4 of `generate_module_overview_slide` (`src/app.py:294`). -/
def generate_module_overview_slide_4 (title : String) (md : ModuleData) (crit : Criteria) : String :=
  "# 📊 " ++ title ++ "\n            \n## Assessment Criteria\n\n### 🎯 Evaluation Framework:\nBased on difficulty level: **" ++ (pyStrTitle (md.difficulty.getD "intermediate")) ++ "**\n\n### 📈 Assessment Components:\n- **Understanding** (" ++ (toString crit.understanding) ++ "%): Conceptual grasp\n- **Application** (" ++ (toString crit.application) ++ "%): Practical implementation\n- **Problem Solving** (" ++ (toString crit.problem_solving) ++ "%): Critical thinking\n\n### ✅ Success Indicators:\n- **Completion of hands-on projects**\n- **Demonstration of key concepts**\n- **Ability to adapt solutions**\n- **Quality of implementation**\n\n### 🏆 Recognition:\n- **Module Completion Certificate**\n- **Skill Badges** for specific competencies\n- **Portfolio Projects** for career advancement\n- **Peer Recognition** through community contributions\n\n### 🔄 Continuous Improvement:\n- Regular feedback collection\n- Performance analytics\n- Personalized recommendations\n- Adaptive learning paths\n\n*Assessment is designed to be supportive and growth-oriented.*"

/-- Slide 0 of `generate_hands_on_slide` (`src/app.py:331`). -/
def generate_hands_on_slide_0 (title : String) : String :=
  "# 🚀 " ++ title ++ "\n            \n## Setup and Prerequisites\n\n### 🔧 Technical Requirements:\n- **Python 3.8+** installed on your system\n- **pip** package manager\n- **Code editor** (VS Code, PyCharm, or similar)\n- **Terminal/Command line** access\n\n### 📦 Required Packages:\n```bash\npip install gradio openai langchain chromadb pandas numpy matplotlib\n```\n\n### 🔑 API Keys & Access:\n- **OpenAI API Key** - For GPT models\n- **Hugging Face Token** - For open-source models\n- **Database Access** - For knowledge bases\n- **Testing Environment** - Sandbox for experiments\n\n### 📁 Project Structure:\n```\nai-qa-project/\n├── src/\n├── data/\n├── tests/\n├── config/\n└── notebooks/\n```\n\n### ✅ Verification Steps:\n1. Run `python --version` (should be 3.8+)\n2. Test package imports\n3. Verify API connectivity\n4. Check project structure\n\n*Don't worry if you encounter issues - we'll troubleshoot together!*"

/-- Slide 1 of `generate_hands_on_slide` (`src/app.py:370`). -/
def generate_hands_on_slide_1 (title : String) : String :=
  "# 👨‍💻 " ++ title ++ "\n            \n## Step-by-Step Implementation\n\n### 🎯 Today's Project:\nBuilding an **AI-Powered Test Case Generator**\n\n### 📋 Implementation Steps:\n\n#### Step 1: Environment Setup (5 minutes)\n```python\nimport openai\nimport gradio as gr\nimport json\nfrom datetime import datetime\n```\n\n#### Step 2: Core Function Development (20 minutes)\n- Create the test case generation function\n- Implement prompt engineering for QA\n- Add validation and error handling\n\n#### Step 3: Gradio Interface (15 minutes)\n- Design user-friendly input forms\n- Create output display components\n- Add interactive elements\n\n#### Step 4: Integration & Testing (10 minutes)\n- Connect components\n- Test with sample data\n- Refine based on results\n\n### 🔄 Iterative Development:\n- **Build** → **Test** → **Refine** → **Repeat**\n- Real-time feedback and improvements\n- Collaborative problem-solving\n\n*We'll code together, step by step!*"

/-- Slide 2 of `generate_hands_on_slide` (`src/app.py:409`). -/
def generate_hands_on_slide_2 (title : String) : String :=
  "# ⚠️ " ++ title ++ "\n            \n## Common Challenges\n\n### 🐛 Technical Issues:\n- **API Rate Limits**: Implement proper throttling\n- **Token Limits**: Optimize prompt length\n- **Network Connectivity**: Add retry mechanisms\n- **Package Conflicts**: Use virtual environments\n\n### 🤔 Conceptual Challenges:\n- **Prompt Engineering**: Crafting effective prompts\n- **Model Selection**: Choosing the right AI model\n- **Quality Validation**: Ensuring output quality\n- **Integration Complexity**: Connecting with existing tools\n\n### 💡 Solutions & Workarounds:\n- **Error Handling**: Graceful failure management\n- **Fallback Strategies**: Alternative approaches\n- **Performance Optimization**: Efficient processing\n- **User Experience**: Intuitive interfaces\n\n### 🔧 Troubleshooting Tips:\n1. **Check logs** for detailed error messages\n2. **Test incrementally** - small steps\n3. **Use debugging tools** - print statements, debuggers\n4. **Seek help** - community support available\n\n### 📚 Resources:\n- **Documentation**: Official guides and tutorials\n- **Stack Overflow**: Community Q&A\n- **GitHub Issues**: Known problems and solutions\n- **Office Hours**: Direct support sessions\n\n*Remember: Every expert was once a beginner!*"

/-- Slide 3 of `generate_hands_on_slide` (`src/app.py:445`). -/
def generate_hands_on_slide_3 (title : String) : String :=
  "# 🌟 " ++ title ++ "\n            \n## Best Practices\n\n### 🎯 Development Principles:\n- **Start Simple**: Begin with basic functionality\n- **Iterate Quickly**: Rapid prototyping and testing\n- **Document Everything**: Clear code and process documentation\n- **Test Thoroughly**: Validate all components\n\n### 🔒 Security & Compliance:\n- **API Key Management**: Secure storage and rotation\n- **Data Privacy**: Protect sensitive information\n- **Access Controls**: Implement proper permissions\n- **Audit Trails**: Track all activities\n\n### 📊 Quality Assurance:\n- **Code Reviews**: Peer validation\n- **Automated Testing**: Unit and integration tests\n- **Performance Monitoring**: Track system metrics\n- **User Feedback**: Continuous improvement\n\n### 🚀 Performance Optimization:\n- **Efficient Algorithms**: Choose optimal approaches\n- **Caching Strategies**: Reduce redundant processing\n- **Async Processing**: Handle concurrent requests\n- **Resource Management**: Optimize memory and CPU usage\n\n### 🤝 Collaboration:\n- **Version Control**: Git best practices\n- **Documentation**: Clear and comprehensive\n- **Knowledge Sharing**: Team learning sessions\n- **Mentorship**: Support junior developers\n\n*These practices ensure sustainable, scalable solutions.*"

/-- Slide 4 of `generate_hands_on_slide` (`src/app.py:481`). -/
def generate_hands_on_slide_4 (title : String) : String :=
  "# 🔮 " ++ title ++ "\n            \n## Next Steps\n\n### 🎯 Immediate Actions:\n- **Complete the current project**\n- **Test in your environment**\n- **Document your learnings**\n- **Share with your team**\n\n### 📈 Skill Development:\n- **Advanced Prompt Engineering**\n- **Custom Model Training**\n- **API Integration Mastery**\n- **Performance Optimization**\n\n### 🌐 Community Engagement:\n- **Join AI-QA Forums**\n- **Contribute to Open Source**\n- **Attend Conferences**\n- **Network with Peers**\n\n### 🔄 Continuous Learning:\n- **Follow Industry Trends**\n- **Experiment with New Tools**\n- **Practice Regularly**\n- **Seek Feedback**\n\n### 🏆 Career Advancement:\n- **Build Portfolio Projects**\n- **Obtain Certifications**\n- **Lead AI Initiatives**\n- **Mentor Others**\n\n### 📚 Recommended Resources:\n- **Books**: \"AI for Quality Assurance\"\n- **Courses**: Advanced AI specializations\n- **Blogs**: Industry thought leaders\n- **Podcasts**: AI in testing discussions\n\n*Your AI-QA journey is just beginning!*"

/-- Slide 0 of `generate_conclusion_slide` (`src/app.py:528`). -/
def generate_conclusion_slide_0 (title : String) : String :=
  "# 🎉 " ++ title ++ "\n            \n## What You've Accomplished\n\n### 🏆 Skills Acquired:\n- **AI Integration** in QA workflows\n- **Prompt Engineering** for testing scenarios\n- **Tool Development** using modern frameworks\n- **Problem-Solving** with AI assistance\n\n### 🛠️ Practical Outcomes:\n- **Automated Test Generation** tools\n- **AI-Enhanced Bug Analysis** systems\n- **Custom QA Chatbots** for team support\n- **Knowledge Base** creation and management\n\n### 📊 Measurable Impact:\n- **Efficiency Gains**: 40-60% reduction in manual effort\n- **Quality Improvement**: Enhanced test coverage\n- **Innovation**: New approaches to QA challenges\n- **Career Growth**: Expanded skill set and opportunities\n\n### 🌟 Personal Growth:\n- **Confidence**: Working with AI technologies\n- **Creativity**: Innovative problem-solving approaches\n- **Leadership**: Driving AI adoption in QA\n- **Adaptability**: Embracing technological change\n\n### 🔮 Future Readiness:\n- **Emerging Technologies**: Prepared for AI evolution\n- **Industry Trends**: Understanding of QA direction\n- **Continuous Learning**: Foundation for ongoing development\n- **Professional Network**: Connections with AI-QA community\n\n*You're now equipped to lead AI transformation in QA!*"

/-- Slide 1 of `generate_conclusion_slide` (`src/app.py:564`). -/
def generate_conclusion_slide_1 (title : String) : String :=
  "# 📚 " ++ title ++ "\n            \n## Further Resources\n\n### 📖 Essential Reading:\n- **\"AI-Powered Testing\"** by Tariq King\n- **\"The Art of Prompt Engineering\"** by Various Authors\n- **\"Quality Assurance in the AI Era\"** by Industry Experts\n- **\"Automation Testing with AI\"** by Practical Guides\n\n### 🌐 Online Resources:\n- **AI Testing Handbook** - Comprehensive guide\n- **OpenAI Documentation** - API references and examples\n- **Gradio Documentation** - Interface development\n- **Langchain Tutorials** - AI application building\n\n### 🎥 Video Content:\n- **YouTube Channels**: AI testing specialists\n- **Webinar Series**: Industry expert sessions\n- **Conference Talks**: Latest trends and techniques\n- **Tutorial Playlists**: Step-by-step implementations\n\n### 🔧 Tools & Platforms:\n- **GitHub Repositories**: Open-source projects\n- **Hugging Face Hub**: Pre-trained models\n- **Kaggle Datasets**: Training data for AI models\n- **Google Colab**: Free computing resources\n\n### 📧 Newsletters & Updates:\n- **AI Testing Weekly** - Latest news and trends\n- **QA Innovation** - Industry developments\n- **Tech Updates** - Tool and platform updates\n- **Community Digest** - Peer insights and discussions\n\n*Stay connected with the rapidly evolving AI-QA landscape!*"

/-- Slide 2 of `generate_conclusion_slide` (`src/app.py:600`). -/
def generate_conclusion_slide_2 (title : String) : String :=
  "# 🤝 " ++ title ++ "\n            \n## Community and Support\n\n### 🌐 Online Communities:\n- **AI-QA Professionals Group** - LinkedIn community\n- **Reddit r/QualityAssurance** - Peer discussions\n- **Stack Overflow** - Technical Q&A\n- **Discord Servers** - Real-time chat support\n\n### 📱 Social Media:\n- **Twitter/X**: Follow AI-QA thought leaders\n- **LinkedIn**: Professional networking\n- **YouTube**: Educational content creators\n- **Medium**: Technical articles and insights\n\n### 🏢 Professional Organizations:\n- **Association for Software Testing (AST)**\n- **International Software Testing Qualifications Board (ISTQB)**\n- **AI Testing Institute** - Specialized certification\n- **Local QA Meetups** - In-person networking\n\n### 🎓 Mentorship Opportunities:\n- **Industry Mentors** - Experienced professionals\n- **Peer Mentoring** - Learning together\n- **Reverse Mentoring** - Sharing AI knowledge\n- **Community Leaders** - Guidance and support\n\n### 📞 Direct Support:\n- **Office Hours** - Weekly Q&A sessions\n- **Email Support** - Technical assistance\n- **Discussion Forums** - Community help\n- **Private Consulting** - Personalized guidance\n\n### 🎯 Contributing Back:\n- **Open Source Projects** - Code contributions\n- **Knowledge Sharing** - Blog posts and tutorials\n- **Community Moderation** - Supporting others\n- **Conference Speaking** - Sharing experiences\n\n*Together, we're building the future of AI-enhanced QA!*"

/-- Slide 3 of `generate_conclusion_slide` (`src/app.py:642`). -/
def generate_conclusion_slide_3 (title : String) : String :=
  "# 🎓 " ++ title ++ "\n            \n## Certification Path\n\n### 🏆 Available Certifications:\n\n#### 📋 Foundation Level:\n- **AI-QA Fundamentals** - Basic concepts and applications\n- **Prompt Engineering for QA** - Effective AI communication\n- **Duration**: 4-6 weeks\n- **Prerequisites**: Basic QA knowledge\n\n#### 🔧 Practitioner Level:\n- **AI Test Automation Specialist** - Advanced automation\n- **QA AI Integration Expert** - Workflow optimization\n- **Duration**: 8-12 weeks\n- **Prerequisites**: Foundation certification\n\n#### 🚀 Expert Level:\n- **AI-QA Solution Architect** - Enterprise-level design\n- **Innovation Leader** - Driving AI transformation\n- **Duration**: 12-16 weeks\n- **Prerequisites**: Practitioner certification\n\n### 📊 Assessment Format:\n- **Practical Projects** (60%) - Real-world implementations\n- **Written Examination** (25%) - Theoretical knowledge\n- **Peer Review** (15%) - Community evaluation\n\n### 🎯 Industry Recognition:\n- **Employer Validation** - Recognized by top companies\n- **Career Advancement** - Promotion opportunities\n- **Salary Impact** - 15-30% increase potential\n- **Global Acceptance** - International recognition\n\n### 🔄 Continuous Certification:\n- **Annual Renewal** - Stay current with trends\n- **Continuing Education** - Ongoing learning requirements\n- **Professional Development** - Skill maintenance\n- **Community Contribution** - Give back to the field\n\n*Your certification journey starts here!*"

/-- `PresentationGenerator.generate_introduction_slide`
(`src/app.py:75-176`): the `content` dict keyed by slide index, with
`content.get(index, fallback)` as the unmapped-index fallback. -/
def generate_introduction_slide (title : String) (index : Int) : String :=
  (if index = 0 then some (generate_introduction_slide_0 title)
   else if index = 1 then some (generate_introduction_slide_1 title)
   else if index = 2 then some (generate_introduction_slide_2 title)
   else if index = 3 then some (generate_introduction_slide_3 title)
   else none).getD ("# " ++ title ++ "\n\nContent coming soon...")

/-- `PresentationGenerator.generate_module_overview_slide`
(`src/app.py:178-327`). `if not module_data` guards the whole body; the
Python `content` dict is built eagerly, so the
`config['assessment_criteria'][module_data.get('difficulty',
'intermediate')]` lookup of the index-4 entry runs before any index is
selected and raises `KeyError` when the key is absent — the embedding
hoists that lookup accordingly. -/
def generate_module_overview_slide (cfg : Config) (title : String)
    (index : Int) (module_data : Option ModuleData) : Except PyErr String :=
  if pyTruthy module_data = false then
    .ok ("# " ++ title ++ "\n\nModule data not available")
  else
    let md := module_data.getD emptyModule
    match cfg.assessment_criteria.lookup (md.difficulty.getD "intermediate") with
    | none => .error (.keyError (md.difficulty.getD "intermediate"))
    | some crit =>
        .ok ((if index = 0 then some (generate_module_overview_slide_0 title md)
              else if index = 1 then some (generate_module_overview_slide_1 title)
              else if index = 2 then some (generate_module_overview_slide_2 title md)
              else if index = 3 then some (generate_module_overview_slide_3 title)
              else if index = 4 then some (generate_module_overview_slide_4 title md crit)
              else none).getD ("# " ++ title ++ "\n\nContent coming soon..."))

/-- `PresentationGenerator.generate_hands_on_slide`
(`src/app.py:329-524`). The `module_data` parameter is declared in the
source but never read: every slide interpolates only the title. -/
def generate_hands_on_slide (title : String) (index : Int)
    (_module_data : Option ModuleData) : String :=
  (if index = 0 then some (generate_hands_on_slide_0 title)
   else if index = 1 then some (generate_hands_on_slide_1 title)
   else if index = 2 then some (generate_hands_on_slide_2 title)
   else if index = 3 then some (generate_hands_on_slide_3 title)
   else if index = 4 then some (generate_hands_on_slide_4 title)
   else none).getD ("# " ++ title ++ "\n\nContent coming soon...")

/-- `PresentationGenerator.generate_conclusion_slide`
(`src/app.py:526-686`). -/
def generate_conclusion_slide (title : String) (index : Int) : String :=
  (if index = 0 then some (generate_conclusion_slide_0 title)
   else if index = 1 then some (generate_conclusion_slide_1 title)
   else if index = 2 then some (generate_conclusion_slide_2 title)
   else if index = 3 then some (generate_conclusion_slide_3 title)
   else none).getD ("# " ++ title ++ "\n\nContent coming soon...")

/-- `PresentationGenerator.generate_slide` (`src/app.py:52-73`): the
content resolver. Unknown template types fail soft with
`"Template not found"`; `slide_index >= len(slides)` fails soft with
`"Slide not found"` — a negative `slide_index` passes that check and
reaches `slides[slide_index]`, which wraps or raises per `pyGet`. -/
def generate_slide (cfg : Config) (template_type : String)
    (slide_index : Int) (module_data : Option ModuleData) :
    Except PyErr String :=
  match cfg.presentation_templates.lookup template_type with
  | none => .ok "Template not found"
  | some tmpl =>
      if (tmpl.slides.length : Int) ≤ slide_index then .ok "Slide not found"
      else
        match pyGet tmpl.slides slide_index with
        | none => .error .indexError
        | some slide_title =>
            if template_type = "introduction" then
              .ok (generate_introduction_slide slide_title slide_index)
            else if template_type = "module_overview" then
              generate_module_overview_slide cfg slide_title slide_index module_data
            else if template_type = "hands_on_session" then
              .ok (generate_hands_on_slide slide_title slide_index module_data)
            else if template_type = "conclusion" then
              .ok (generate_conclusion_slide slide_title slide_index)
            else
              .ok ("# " ++ slide_title ++
                "\n\nContent for this slide type is being developed...")

/-- `generate_presentation_slide` (`src/app.py:695-699`), the UI event
handler: `module_data = config['modules'].get(module_id, {}) if module_id
else None`. The dropdown value is optional; the empty string is falsy like
`None`. -/
def generate_presentation_slide (cfg : Config) (module_id : Option String)
    (template_type : String) (slide_index : Int) : Except PyErr String :=
  let module_data : Option ModuleData :=
    match module_id with
    | some mid =>
        if mid = "" then none
        else some ((cfg.modules.lookup mid).getD emptyModule)
    | none => none
  generate_slide cfg template_type slide_index module_data

/-- A JSON value, the shape of the progress document and of the loosely
structured collections inside it (`assessments_completed`,
`hands_on_projects`, `bookmarks`, `notes`). Numbers are exact rationals
standing in for Python's floats. -/
inductive Json where
  | null
  | bool (b : Bool)
  | num (q : ℚ)
  | str (s : String)
  | arr (elems : List Json)
  | obj (fields : List (String × Json))

/-- The `preferences` sub-record of the progress document. -/
structure Preferences where
  difficulty_level : String
  focus_areas : List String
  hands_on_preference : Bool

/-- One `session_history` entry, `{timestamp, module, action}`
(`src/app.py:766-770`). -/
structure SessionEntry where
  timestamp : String
  module : String
  action : String

/-- The progress document, shaped like the dict `load_user_progress`
builds on its fallback path (`src/app.py:21-37`): that literal fixes the
field set and order of the persisted record. -/
structure Progress where
  current_module : Option String
  completed_modules : List String
  current_progress : ℚ
  skills_acquired : List String
  assessments_completed : List Json
  hands_on_projects : List Json
  learning_path : String
  preferences : Preferences
  session_history : List SessionEntry
  bookmarks : List Json
  notes : List (String × Json)

/-- The JSON value of an optional string field (`None` → `null`). -/
def optStrToJson : Option String → Json
  | none => .null
  | some s => .str s

/-- The JSON object a `Preferences` record serializes to. -/
def Preferences.toJson (p : Preferences) : Json :=
  .obj [("difficulty_level", .str p.difficulty_level),
        ("focus_areas", .arr (p.focus_areas.map .str)),
        ("hands_on_preference", .bool p.hands_on_preference)]

/-- The JSON object a `session_history` entry serializes to. -/
def SessionEntry.toJson (e : SessionEntry) : Json :=
  .obj [("timestamp", .str e.timestamp),
        ("module", .str e.module),
        ("action", .str e.action)]

/-- The JSON document a `Progress` record serializes to: the dict
`json.dump` writes, with the field order of the default record
(`src/app.py:21-37`). -/
def Progress.toJson (p : Progress) : Json :=
  .obj [("current_module", optStrToJson p.current_module),
        ("completed_modules", .arr (p.completed_modules.map .str)),
        ("current_progress", .num p.current_progress),
        ("skills_acquired", .arr (p.skills_acquired.map .str)),
        ("assessments_completed", .arr p.assessments_completed),
        ("hands_on_projects", .arr p.hands_on_projects),
        ("learning_path", .str p.learning_path),
        ("preferences", p.preferences.toJson),
        ("session_history", .arr (p.session_history.map SessionEntry.toJson)),
        ("bookmarks", .arr p.bookmarks),
        ("notes", .obj p.notes)]

/-- The hardcoded default record returned by the `except:` branch of
`load_user_progress` (`src/app.py:21-37`). -/
def default_user_progress : Progress :=
  { current_module := none,
    completed_modules := [],
    current_progress := 0,
    skills_acquired := [],
    assessments_completed := [],
    hands_on_projects := [],
    learning_path := "custom",
    preferences :=
      { difficulty_level := "intermediate",
        focus_areas := [],
        hands_on_preference := true },
    session_history := [],
    bookmarks := [],
    notes := [] }

/-- `load_user_progress` (`src/app.py:16-37`). The file state is `none`
when `user_progress.json` is missing or unreadable — the bare `except:`
collapses every read failure to the hardcoded default — and `some doc`
when it holds the JSON document `doc`, which is returned verbatim. -/
def load_user_progress (file : Option Json) : Json :=
  match file with
  | some doc => doc
  | none => default_user_progress.toJson

/-- `save_user_progress` (`src/app.py:39-41`): overwrites the whole file
with `json.dump(progress_data)`; the resulting file state holds exactly
the dumped document (the spec's persistence file is read back verbatim). -/
def save_user_progress (progress_data : Json) : Option Json :=
  some progress_data

/-- `update_user_progress` (`src/app.py:747-773`), acting on the
module-level `user_progress` record; `now` is
`datetime.now().isoformat()`. Returns the updated record and the
confirmation string. In Python an empty `config['modules']` table would
make the `"complete"` branch raise `ZeroDivisionError`; theorems about
that branch therefore assume a nonempty module table (the deployed
configuration has six modules). -/
def update_user_progress (cfg : Config) (now : String) (user_progress : Progress)
    (module_id : String) (action : String) : Progress × String :=
  let p1 :=
    if action = "complete" then
      if module_id ∈ user_progress.completed_modules then user_progress
      else
        let completed := user_progress.completed_modules ++ [module_id]
        let module_data := (cfg.modules.lookup module_id).getD emptyModule
        { user_progress with
          completed_modules := completed,
          current_progress :=
            (completed.length : ℚ) / (cfg.modules.length : ℚ) * 100,
          skills_acquired :=
            (module_data.topics.getD []).foldl
              (fun acc topic => if topic ∈ acc then acc else acc ++ [topic])
              user_progress.skills_acquired }
    else if action = "start" then
      { user_progress with current_module := some module_id }
    else user_progress
  let p2 :=
    { p1 with session_history :=
        p1.session_history ++ [⟨now, module_id, action⟩] }
  (p2, "Progress updated: " ++ action ++ " for module " ++ module_id)

/-- The sample configuration `SAMPLE_MODULE_CONFIG` from
`src/tests/fixtures/sample_configs.py`, which the test suite documents as
mirroring the structure of the deployed `module_config.json`. Used as the
concrete configuration of witnesses and counterexamples. -/
def SAMPLE_MODULE_CONFIG : Config :=
  { modules :=
      [("programming_with_ai",
        { title := some "Programming/Building Projects with AI",
          description := some "Practical AI-driven development for QA professionals",
          topics := some ["Automation Tools Development",
                          "Chatbot Integration for QA",
                          "Personal QA Assistants",
                          "Test Data Generation",
                          "API Testing Automation"],
          hands_on := some true,
          difficulty := some "intermediate" }),
       ("ai_best_practices",
        { title := some "Best Practices with AI",
          description := some "Effective and safe AI usage in QA workflows",
          topics := some ["Prompt Design for QA",
                          "Workflow Integration",
                          "Smart Decision Making",
                          "AI Model Selection",
                          "Quality Metrics"],
          hands_on := some true,
          difficulty := some "beginner" }),
       ("qa_ai_integration",
        { title := some "QA + AI Integration",
          description := some "Advanced AI integration in testing processes",
          topics := some ["Automated Test Case Generation",
                          "AI-Driven Bug Analysis",
                          "LLM Integration in Testing",
                          "Visual Testing with AI",
                          "Performance Testing Automation"],
          hands_on := some true,
          difficulty := some "advanced" })],
    presentation_templates :=
      [("introduction",
        { slides := ["Welcome to AI-Driven QA",
                     "Your Learning Journey",
                     "Tools and Resources",
                     "Expected Outcomes"] }),
       ("module_overview",
        { slides := ["Module Introduction",
                     "Learning Objectives",
                     "Key Topics",
                     "Hands-on Activities",
                     "Assessment Criteria"] }),
       ("hands_on_session",
        { slides := ["Setup and Prerequisites",
                     "Step-by-Step Implementation",
                     "Common Challenges",
                     "Best Practices",
                     "Next Steps"] }),
       ("conclusion",
        { slides := ["Key Takeaways",
                     "Further Resources",
                     "Community and Support",
                     "Certification Path"] })],
    assessment_criteria :=
      [("beginner",
        { understanding := 40, application := 30, problem_solving := 30 }),
       ("intermediate",
        { understanding := 30, application := 40, problem_solving := 30 }),
       ("advanced",
        { understanding := 20, application := 40, problem_solving := 40 })] }

/-- The sample configuration with the assessment-criteria table of the
spec's §8 scenario: `intermediate = {understanding: 30, application: 50,
problem_solving: 20}`. -/
def SPEC_SCENARIO_CONFIG : Config :=
  { SAMPLE_MODULE_CONFIG with
    assessment_criteria :=
      [("intermediate",
        { understanding := 30, application := 50, problem_solving := 20 })] }

/-- `pat` occurs as a contiguous substring of `s` (Python's `pat in s`). -/
def containsSubstr (s pat : String) : Prop :=
  pat.data <:+: s.data

instance (s pat : String) : Decidable (containsSubstr s pat) :=
  List.decidableInfix pat.data s.data

/-! ### Helper lemmas -/

theorem infix_append_left {pat l₂ : List Char} (l₁ : List Char)
    (h : pat <:+: l₂) : pat <:+: l₁ ++ l₂ :=
  h.trans (List.suffix_append l₁ l₂).isInfix

theorem containsSubstr_append_right (a b pat : String)
    (h : containsSubstr b pat) : containsSubstr (a ++ b) pat := by
  unfold containsSubstr at h ⊢
  rw [String.data_append]
  exact infix_append_left a.data h

theorem pyGet_isSome (l : List String) (i : Int) (h0 : 0 ≤ i)
    (hl : i < (l.length : Int)) : ∃ t, pyGet l i = some t := by
  unfold pyGet
  rw [if_pos h0]
  have hn : i.toNat < l.length := by omega
  exact ⟨l.get ⟨i.toNat, hn⟩, List.get?_eq_get hn⟩

/-! ### Claims C1 and C2: soft failure of the resolver -/

/-- C2 (amended): for every template type present in the template table
and every `slide_index` greater than or equal to the length of that
template's slide-title sequence, `generate_slide` returns exactly
`"Slide not found"`; in particular `resolve("introduction", 999)` equals
`"Slide not found"`. (The amendment restricts the original claim's
"outside the bounds" to indices at or above the length: a negative
out-of-bounds index is not answered with `"Slide not found"` — Python
indexing wraps it or raises, see the counterexample.) -/
theorem generate_slide_out_of_bounds (cfg : Config) (template_type : String)
    (slide_index : Int) (module_data : Option ModuleData) (tmpl : Template)
    (h : cfg.presentation_templates.lookup template_type = some tmpl)
    (hi : (tmpl.slides.length : Int) ≤ slide_index) :
    generate_slide cfg template_type slide_index module_data =
      .ok "Slide not found" := by
  unfold generate_slide
  rw [h]
  simp only [if_pos hi]

/-- Witness for `generate_slide_out_of_bounds`: the spec's concrete case
`resolve("introduction", 999) == "Slide not found"` on the sample
configuration. -/
theorem generate_slide_out_of_bounds_witness :
    generate_slide SAMPLE_MODULE_CONFIG "introduction" 999 none =
      .ok "Slide not found" :=
  generate_slide_out_of_bounds SAMPLE_MODULE_CONFIG "introduction" 999 none
    { slides := ["Welcome to AI-Driven QA", "Your Learning Journey",
                 "Tools and Resources", "Expected Outcomes"] }
    (by decide) (by decide)

instance {ε α : Type} [DecidableEq ε] [DecidableEq α] :
    DecidableEq (Except ε α) := fun
  | .ok a, .ok b =>
    match decEq a b with
    | isTrue h => isTrue (h ▸ rfl)
    | isFalse h => isFalse (fun he => h (Except.ok.inj he))
  | .ok _, .error _ => isFalse (fun h => Except.noConfusion h)
  | .error _, .ok _ => isFalse (fun h => Except.noConfusion h)
  | .error a, .error b =>
    match decEq a b with
    | isTrue h => isTrue (h ▸ rfl)
    | isFalse h => isFalse (fun he => h (Except.error.inj he))

/-- Counterexample to C2 as stated: `slide_index = -1` is outside the
bounds of the `introduction` template's four-element slide sequence, yet
`generate_slide` does not answer `"Slide not found"` — Python's negative
indexing wraps to the last slide title and the routine falls back to
`"# Expected Outcomes\n\nContent coming soon..."`. -/
theorem generate_slide_negative_index_not_soft :
    generate_slide SAMPLE_MODULE_CONFIG "introduction" (-1) none ≠
      .ok "Slide not found" := by decide

/-- C1 (amended): for every template type, every nonnegative
`slide_index`, and every optional `module_data` record whose difficulty
(defaulted to `"intermediate"`) is a key of the `assessment_criteria`
table whenever the record is truthy — which every record shaped by the
data model satisfies, difficulty being one of the three configured levels
— the content resolver returns a string and never raises; every
content-resolution miss yields a literal descriptive string. (The
amendment restricts the original claim's "every integer slide_index" to
nonnegative ones: a sufficiently negative index makes `slides[slide_index]`
raise `IndexError`, see the counterexample.) -/
theorem generate_slide_total_on_nonneg (cfg : Config) (template_type : String)
    (slide_index : Int) (module_data : Option ModuleData)
    (h0 : 0 ≤ slide_index)
    (hcrit : ∀ md, module_data = some md → pyTruthy (some md) = true →
      (cfg.assessment_criteria.lookup (md.difficulty.getD "intermediate")).isSome) :
    ∃ s, generate_slide cfg template_type slide_index module_data =
      .ok s := by
  unfold generate_slide
  cases hl : cfg.presentation_templates.lookup template_type with
  | none => exact ⟨_, rfl⟩
  | some tmpl =>
    by_cases hb : (tmpl.slides.length : Int) ≤ slide_index
    · simp only [if_pos hb]
      exact ⟨_, rfl⟩
    · simp only [if_neg hb]
      obtain ⟨t, ht⟩ := pyGet_isSome tmpl.slides slide_index h0 (by omega)
      simp only [ht]
      by_cases h1 : template_type = "introduction"
      · simp only [if_pos h1]; exact ⟨_, rfl⟩
      · simp only [if_neg h1]
        by_cases h2 : template_type = "module_overview"
        · simp only [if_pos h2]
          unfold generate_module_overview_slide
          cases htr : pyTruthy module_data with
          | false => simp only [if_pos htr]; exact ⟨_, rfl⟩
          | true =>
            rw [if_neg (by simp [htr])]
            cases module_data with
            | none => simp [pyTruthy] at htr
            | some md =>
              have := hcrit md rfl htr
              obtain ⟨crit, hc⟩ := Option.isSome_iff_exists.mp this
              simp only [Option.getD_some]
              simp only [hc]
              exact ⟨_, rfl⟩
        · simp only [if_neg h2]
          by_cases h3 : template_type = "hands_on_session"
          · simp only [if_pos h3]; exact ⟨_, rfl⟩
          · simp only [if_neg h3]
            by_cases h4 : template_type = "conclusion"
            · simp only [if_pos h4]; exact ⟨_, rfl⟩
            · simp only [if_neg h4]; exact ⟨_, rfl⟩

/-- Witness for `generate_slide_total_on_nonneg` at a concrete input:
template `"module_overview"`, slide 3, the fixture's
`programming_with_ai` module record. -/
theorem generate_slide_total_on_nonneg_witness :
    ∃ s, generate_slide SAMPLE_MODULE_CONFIG "module_overview" 3
      (some { title := some "Programming/Building Projects with AI",
              description := some "Practical AI-driven development for QA professionals",
              topics := some ["Automation Tools Development",
                              "Chatbot Integration for QA",
                              "Personal QA Assistants",
                              "Test Data Generation",
                              "API Testing Automation"],
              hands_on := some true,
              difficulty := some "intermediate" }) = .ok s :=
  generate_slide_total_on_nonneg SAMPLE_MODULE_CONFIG "module_overview" 3 _
    (by decide) (fun md hmd _ => by cases hmd; decide)

/-- Counterexample to C1 as stated: at the integer slide index `-999` the
resolver raises `IndexError` (the `slide_index >= len(slides)` guard does
not catch negative indices, and `slides[-999]` is out of Python's wrapped
range), so "returns a string and never raises an exception" fails for
"every integer slide_index". -/
theorem generate_slide_raises_on_negative_index :
    generate_slide SAMPLE_MODULE_CONFIG "introduction" (-999) none =
      .error .indexError := by decide

/-! ### Claims C8 and C10: the missing-module-data special case -/

theorem generate_slide_module_overview_falsy (cfg : Config) (tmpl : Template)
    (i : Int) (md : Option ModuleData) (t : String)
    (h : cfg.presentation_templates.lookup "module_overview" = some tmpl)
    (hl : i < (tmpl.slides.length : Int))
    (hf : pyTruthy md = false)
    (ht : pyGet tmpl.slides i = some t) :
    generate_slide cfg "module_overview" i md =
      .ok ("# " ++ t ++ "\n\nModule data not available") := by
  unfold generate_slide
  simp only [h, if_neg (by omega : ¬ (tmpl.slides.length : Int) ≤ i), ht]
  unfold generate_module_overview_slide
  simp [hf]

/-- C8: for template `"module_overview"` with an in-bounds slide index
and absent (`None`) module data, the resolver returns the slide title,
rendered as the markdown heading `"# <title>"`, followed by
`"\n\nModule data not available"` — so the result contains
`"Module data not available"` — rather than the generic not-found
message. -/
theorem module_overview_without_module_data (cfg : Config) (tmpl : Template)
    (i : Int)
    (h : cfg.presentation_templates.lookup "module_overview" = some tmpl)
    (h0 : 0 ≤ i) (hl : i < (tmpl.slides.length : Int)) :
    ∃ t, pyGet tmpl.slides i = some t ∧
      generate_slide cfg "module_overview" i none =
        .ok ("# " ++ t ++ "\n\nModule data not available") ∧
      containsSubstr ("# " ++ t ++ "\n\nModule data not available")
        "Module data not available" ∧
      generate_slide cfg "module_overview" i none ≠ .ok "Slide not found" ∧
      generate_slide cfg "module_overview" i none ≠ .ok "Template not found" := by
  obtain ⟨t, ht⟩ := pyGet_isSome tmpl.slides i h0 hl
  have hev := generate_slide_module_overview_falsy cfg tmpl i none t h hl rfl ht
  refine ⟨t, ht, hev, ?_, ?_, ?_⟩
  · exact containsSubstr_append_right ("# " ++ t)
      "\n\nModule data not available" "Module data not available" (by decide)
  · rw [hev]
    intro hcon
    have h1 := congrArg String.length (Except.ok.inj hcon)
    simp only [String.length_append] at h1
    have h2 : ("# " : String).length = 2 := by decide
    have h3 : ("\n\nModule data not available" : String).length = 27 := by decide
    have h4 : ("Slide not found" : String).length = 15 := by decide
    omega
  · rw [hev]
    intro hcon
    have h1 := congrArg String.length (Except.ok.inj hcon)
    simp only [String.length_append] at h1
    have h2 : ("# " : String).length = 2 := by decide
    have h3 : ("\n\nModule data not available" : String).length = 27 := by decide
    have h4 : ("Template not found" : String).length = 18 := by decide
    omega

/-- Witness for `module_overview_without_module_data`: the spec's
scenario `resolve("module_overview", 0, null)` on the sample
configuration. -/
theorem module_overview_without_module_data_witness :
    ∃ t, pyGet (Template.mk ["Module Introduction", "Learning Objectives",
        "Key Topics", "Hands-on Activities", "Assessment Criteria"]).slides
        (0 : Int) = some t ∧
      generate_slide SAMPLE_MODULE_CONFIG "module_overview" 0 none =
        .ok ("# " ++ t ++ "\n\nModule data not available") ∧
      containsSubstr ("# " ++ t ++ "\n\nModule data not available")
        "Module data not available" ∧
      generate_slide SAMPLE_MODULE_CONFIG "module_overview" 0 none ≠
        .ok "Slide not found" ∧
      generate_slide SAMPLE_MODULE_CONFIG "module_overview" 0 none ≠
        .ok "Template not found" :=
  module_overview_without_module_data SAMPLE_MODULE_CONFIG _ 0
    (by decide) (by decide) (by decide)

/-- C10: when the selected module id is non-null, nonempty and absent
from the configuration's module table, `generate_presentation_slide`
passes the empty dict `{}` as module data; the resolver treats it exactly
like absent module data, so an in-bounds `module_overview` request yields
the `"Module data not available"` slide rather than an exception or a
slide populated from a nonexistent module. -/
theorem presentation_slide_unknown_module (cfg : Config) (mid : String)
    (tmpl : Template) (i : Int)
    (hmid : mid ≠ "")
    (hmod : cfg.modules.lookup mid = none)
    (h : cfg.presentation_templates.lookup "module_overview" = some tmpl)
    (h0 : 0 ≤ i) (hl : i < (tmpl.slides.length : Int)) :
    generate_presentation_slide cfg (some mid) "module_overview" i =
      generate_slide cfg "module_overview" i (some emptyModule) ∧
    generate_presentation_slide cfg (some mid) "module_overview" i =
      generate_slide cfg "module_overview" i none ∧
    ∃ t, pyGet tmpl.slides i = some t ∧
      generate_presentation_slide cfg (some mid) "module_overview" i =
        .ok ("# " ++ t ++ "\n\nModule data not available") := by
  obtain ⟨t, ht⟩ := pyGet_isSome tmpl.slides i h0 hl
  have hwrap : generate_presentation_slide cfg (some mid) "module_overview" i =
      generate_slide cfg "module_overview" i (some emptyModule) := by
    unfold generate_presentation_slide
    simp only [if_neg hmid, hmod, Option.getD_none]
  have hempty := generate_slide_module_overview_falsy cfg tmpl i
    (some emptyModule) t h hl rfl ht
  have hnone := generate_slide_module_overview_falsy cfg tmpl i
    none t h hl rfl ht
  exact ⟨hwrap, by rw [hwrap, hempty, hnone], t, ht, by rw [hwrap, hempty]⟩

/-- Witness for `presentation_slide_unknown_module`: the unknown module
id `"nonexistent_module"` on the sample configuration, slide 1. -/
theorem presentation_slide_unknown_module_witness :
    generate_presentation_slide SAMPLE_MODULE_CONFIG
        (some "nonexistent_module") "module_overview" 1 =
      generate_slide SAMPLE_MODULE_CONFIG "module_overview" 1
        (some emptyModule) ∧
    generate_presentation_slide SAMPLE_MODULE_CONFIG
        (some "nonexistent_module") "module_overview" 1 =
      generate_slide SAMPLE_MODULE_CONFIG "module_overview" 1 none ∧
    ∃ t, pyGet (Template.mk ["Module Introduction", "Learning Objectives",
        "Key Topics", "Hands-on Activities", "Assessment Criteria"]).slides
        (1 : Int) = some t ∧
      generate_presentation_slide SAMPLE_MODULE_CONFIG
          (some "nonexistent_module") "module_overview" 1 =
        .ok ("# " ++ t ++ "\n\nModule data not available") :=
  presentation_slide_unknown_module SAMPLE_MODULE_CONFIG
    "nonexistent_module" _ 1 (by decide) (by decide) (by decide)
    (by decide) (by decide)

/-! ### Claim C3: assessment-criteria interpolation on slide 4 -/

set_option maxRecDepth 8000 in
/-- C3: resolving template `"module_overview"` at slide index 4 with
truthy module data substitutes into the slide text the three integer
percentages looked up in `assessment_criteria` at the module's
`difficulty` key, `"intermediate"` when the field is missing
(`generate_module_overview_slide_4` spells out the substitution); when
that entry is `{understanding: 30, application: 50, problem_solving: 20}`
the returned string contains the substrings `"30%"` and `"50%"`. -/
theorem module_overview_assessment_interpolation (cfg : Config)
    (tmpl : Template) (title : String) (md : ModuleData) (crit : Criteria)
    (h : cfg.presentation_templates.lookup "module_overview" = some tmpl)
    (hl : (4 : Int) < (tmpl.slides.length : Int))
    (ht : pyGet tmpl.slides 4 = some title)
    (htr : pyTruthy (some md) = true)
    (hc : cfg.assessment_criteria.lookup (md.difficulty.getD "intermediate") =
      some crit) :
    generate_slide cfg "module_overview" 4 (some md) =
      .ok (generate_module_overview_slide_4 title md crit) ∧
    (crit = ⟨30, 50, 20⟩ →
      containsSubstr (generate_module_overview_slide_4 title md crit) "30%" ∧
      containsSubstr (generate_module_overview_slide_4 title md crit) "50%") := by
  constructor
  · unfold generate_slide
    simp only [h, ht, if_neg (by omega : ¬ (tmpl.slides.length : Int) ≤ 4)]
    unfold generate_module_overview_slide
    simp [htr, hc]
  · intro hcrit
    subst hcrit
    constructor
    · unfold containsSubstr generate_module_overview_slide_4
      simp only [String.data_append, List.append_assoc]
      exact infix_append_left _ (infix_append_left _ (infix_append_left _
        (infix_append_left _ (by decide))))
    · unfold containsSubstr generate_module_overview_slide_4
      simp only [String.data_append, List.append_assoc]
      exact infix_append_left _ (infix_append_left _ (infix_append_left _
        (infix_append_left _ (by decide))))

/-- Witness for `module_overview_assessment_interpolation`: the spec's §8
scenario on `SPEC_SCENARIO_CONFIG` with the fixture's
`programming_with_ai` record (difficulty `"intermediate"`). -/
theorem module_overview_assessment_interpolation_witness :
    generate_slide SPEC_SCENARIO_CONFIG "module_overview" 4
        (some { title := some "Programming/Building Projects with AI",
                description := some "Practical AI-driven development for QA professionals",
                topics := some ["Automation Tools Development",
                                "Chatbot Integration for QA",
                                "Personal QA Assistants",
                                "Test Data Generation",
                                "API Testing Automation"],
                hands_on := some true,
                difficulty := some "intermediate" }) =
      .ok (generate_module_overview_slide_4 "Assessment Criteria"
        { title := some "Programming/Building Projects with AI",
          description := some "Practical AI-driven development for QA professionals",
          topics := some ["Automation Tools Development",
                          "Chatbot Integration for QA",
                          "Personal QA Assistants",
                          "Test Data Generation",
                          "API Testing Automation"],
          hands_on := some true,
          difficulty := some "intermediate" }
        { understanding := 30, application := 50, problem_solving := 20 }) ∧
    (({ understanding := 30, application := 50, problem_solving := 20 } : Criteria) =
        ⟨30, 50, 20⟩ →
      containsSubstr (generate_module_overview_slide_4 "Assessment Criteria"
        { title := some "Programming/Building Projects with AI",
          description := some "Practical AI-driven development for QA professionals",
          topics := some ["Automation Tools Development",
                          "Chatbot Integration for QA",
                          "Personal QA Assistants",
                          "Test Data Generation",
                          "API Testing Automation"],
          hands_on := some true,
          difficulty := some "intermediate" }
        { understanding := 30, application := 50, problem_solving := 20 }) "30%" ∧
      containsSubstr (generate_module_overview_slide_4 "Assessment Criteria"
        { title := some "Programming/Building Projects with AI",
          description := some "Practical AI-driven development for QA professionals",
          topics := some ["Automation Tools Development",
                          "Chatbot Integration for QA",
                          "Personal QA Assistants",
                          "Test Data Generation",
                          "API Testing Automation"],
          hands_on := some true,
          difficulty := some "intermediate" }
        { understanding := 30, application := 50, problem_solving := 20 }) "50%") :=
  module_overview_assessment_interpolation SPEC_SCENARIO_CONFIG
    { slides := ["Module Introduction", "Learning Objectives", "Key Topics",
                 "Hands-on Activities", "Assessment Criteria"] }
    "Assessment Criteria" _ _
    (by decide) (by decide) (by decide) (by decide) (by decide)

/-! ### Claims C4, C7 and C9: the progress-update operation -/

theorem mem_foldl_dedup_of_mem_acc (l acc : List String) (x : String)
    (hx : x ∈ acc) :
    x ∈ l.foldl
      (fun acc topic => if topic ∈ acc then acc else acc ++ [topic]) acc := by
  induction l generalizing acc with
  | nil => exact hx
  | cons a l ih =>
    simp only [List.foldl_cons]
    apply ih
    by_cases h : a ∈ acc
    · rwa [if_pos h]
    · rw [if_neg h]
      exact List.mem_append_left _ hx
theorem mem_foldl_dedup_of_mem (l : List String) (x : String) (hx : x ∈ l) :
    ∀ acc, x ∈ l.foldl
      (fun acc topic => if topic ∈ acc then acc else acc ++ [topic]) acc := by
  induction l with
  | nil => cases hx
  | cons a l ih =>
    intro acc
    simp only [List.foldl_cons]
    rcases List.mem_cons.mp hx with h | h
    · subst h
      apply mem_foldl_dedup_of_mem_acc
      by_cases hm : x ∈ acc
      · rwa [if_pos hm]
      · rw [if_neg hm]
        exact List.mem_append_right _ (List.mem_singleton_self x)
    · exact ih h _

theorem nodup_foldl_dedup (l : List String) :
    ∀ acc : List String, acc.Nodup →
      (l.foldl
        (fun acc topic => if topic ∈ acc then acc else acc ++ [topic])
        acc).Nodup := by
  induction l with
  | nil => exact fun acc h => h
  | cons a l ih =>
    intro acc h
    simp only [List.foldl_cons]
    apply ih
    by_cases hm : a ∈ acc
    · rwa [if_pos hm]
    · rw [if_neg hm]
      simp [List.nodup_append, h, hm]

theorem update_complete_not_mem (cfg : Config) (now : String) (p : Progress)
    (m : String) (hmem : m ∉ p.completed_modules) :
    update_user_progress cfg now p m "complete" =
      ({ p with
          completed_modules := p.completed_modules ++ [m],
          current_progress := ((p.completed_modules ++ [m]).length : ℚ) /
            (cfg.modules.length : ℚ) * 100,
          skills_acquired :=
            (((cfg.modules.lookup m).getD emptyModule).topics.getD []).foldl
              (fun acc topic => if topic ∈ acc then acc else acc ++ [topic])
              p.skills_acquired,
          session_history := p.session_history ++ [⟨now, m, "complete"⟩] },
        "Progress updated: " ++ "complete" ++ " for module " ++ m) := by
  unfold update_user_progress
  rw [if_pos rfl, if_neg hmem]

theorem update_complete_mem (cfg : Config) (now : String) (p : Progress)
    (m : String) (hmem : m ∈ p.completed_modules) :
    update_user_progress cfg now p m "complete" =
      ({ p with session_history := p.session_history ++ [⟨now, m, "complete"⟩] },
        "Progress updated: " ++ "complete" ++ " for module " ++ m) := by
  unfold update_user_progress
  rw [if_pos rfl, if_pos hmem]

/-- C4: completing the same module twice leaves it in
`completed_modules` exactly once — the second call appends no duplicate —
and the first completion recomputes `current_progress` as
`|completed_modules| / |all modules| * 100` and merges the module's
topics into `skills_acquired` without introducing duplicates. -/
theorem update_complete_dedup (cfg : Config) (now₁ now₂ : String)
    (p : Progress) (m : String) (hmem : m ∉ p.completed_modules) :
    (update_user_progress cfg now₂
        (update_user_progress cfg now₁ p m "complete").1 m
        "complete").1.completed_modules.count m = 1 ∧
    (update_user_progress cfg now₂
        (update_user_progress cfg now₁ p m "complete").1 m
        "complete").1.completed_modules = p.completed_modules ++ [m] ∧
    (update_user_progress cfg now₁ p m "complete").1.current_progress =
      (((update_user_progress cfg now₁ p m
          "complete").1.completed_modules.length : ℚ) /
        (cfg.modules.length : ℚ)) * 100 ∧
    (∀ t ∈ ((cfg.modules.lookup m).getD emptyModule).topics.getD [],
      t ∈ (update_user_progress cfg now₁ p m "complete").1.skills_acquired) ∧
    (p.skills_acquired.Nodup →
      (update_user_progress cfg now₁ p m "complete").1.skills_acquired.Nodup) := by
  have h1 := update_complete_not_mem cfg now₁ p m hmem
  have hm2 : m ∈ ((update_user_progress cfg now₁ p m
      "complete").1).completed_modules := by
    rw [h1]
    exact List.mem_append_right _ (List.mem_singleton_self m)
  have h2 := update_complete_mem cfg now₂
    (update_user_progress cfg now₁ p m "complete").1 m hm2
  refine ⟨?_, ?_, ?_, ?_, ?_⟩
  · rw [h2, h1]
    simp [List.count_append, List.count_eq_zero_of_not_mem hmem]
  · rw [h2, h1]
  · rw [h1]
  · intro t ht
    rw [h1]
    exact mem_foldl_dedup_of_mem _ t ht _
  · intro hnd
    rw [h1]
    exact nodup_foldl_dedup _ _ hnd

/-- Witness for `update_complete_dedup`: completing
`"ai_best_practices"` twice from the default progress record on the
sample configuration. -/
theorem update_complete_dedup_witness :
    (update_user_progress SAMPLE_MODULE_CONFIG "t2"
        (update_user_progress SAMPLE_MODULE_CONFIG "t1" default_user_progress
          "ai_best_practices" "complete").1 "ai_best_practices"
        "complete").1.completed_modules.count "ai_best_practices" = 1 ∧
    (update_user_progress SAMPLE_MODULE_CONFIG "t2"
        (update_user_progress SAMPLE_MODULE_CONFIG "t1" default_user_progress
          "ai_best_practices" "complete").1 "ai_best_practices"
        "complete").1.completed_modules =
      default_user_progress.completed_modules ++ ["ai_best_practices"] ∧
    (update_user_progress SAMPLE_MODULE_CONFIG "t1" default_user_progress
        "ai_best_practices" "complete").1.current_progress =
      (((update_user_progress SAMPLE_MODULE_CONFIG "t1" default_user_progress
          "ai_best_practices" "complete").1.completed_modules.length : ℚ) /
        (SAMPLE_MODULE_CONFIG.modules.length : ℚ)) * 100 ∧
    (∀ t ∈ ((SAMPLE_MODULE_CONFIG.modules.lookup
        "ai_best_practices").getD emptyModule).topics.getD [],
      t ∈ (update_user_progress SAMPLE_MODULE_CONFIG "t1" default_user_progress
        "ai_best_practices" "complete").1.skills_acquired) ∧
    (default_user_progress.skills_acquired.Nodup →
      (update_user_progress SAMPLE_MODULE_CONFIG "t1" default_user_progress
        "ai_best_practices" "complete").1.skills_acquired.Nodup) :=
  update_complete_dedup SAMPLE_MODULE_CONFIG "t1" "t2" default_user_progress
    "ai_best_practices" (by decide)

/-- C9: `update(module_id, "start")` sets `current_module` to the module
id, appends exactly one session-history entry
`{timestamp, module: module_id, action: "start"}`, and leaves every other
progress field unchanged. -/
theorem update_start_frame (cfg : Config) (now : String) (p : Progress)
    (module_id : String) :
    update_user_progress cfg now p module_id "start" =
      ({ p with
          current_module := some module_id,
          session_history :=
            p.session_history ++ [⟨now, module_id, "start"⟩] },
        "Progress updated: " ++ "start" ++ " for module " ++ module_id) ∧
    (update_user_progress cfg now p module_id "start").1.current_module =
      some module_id ∧
    (update_user_progress cfg now p module_id "start").1.session_history =
      p.session_history ++ [⟨now, module_id, "start"⟩] ∧
    (update_user_progress cfg now p module_id "start").1.completed_modules =
      p.completed_modules ∧
    (update_user_progress cfg now p module_id "start").1.current_progress =
      p.current_progress ∧
    (update_user_progress cfg now p module_id "start").1.skills_acquired =
      p.skills_acquired ∧
    (update_user_progress cfg now p module_id "start").1.assessments_completed =
      p.assessments_completed ∧
    (update_user_progress cfg now p module_id "start").1.hands_on_projects =
      p.hands_on_projects ∧
    (update_user_progress cfg now p module_id "start").1.learning_path =
      p.learning_path ∧
    (update_user_progress cfg now p module_id "start").1.preferences =
      p.preferences ∧
    (update_user_progress cfg now p module_id "start").1.bookmarks =
      p.bookmarks ∧
    (update_user_progress cfg now p module_id "start").1.notes = p.notes := by
  have h : update_user_progress cfg now p module_id "start" =
      ({ p with
          current_module := some module_id,
          session_history :=
            p.session_history ++ [⟨now, module_id, "start"⟩] },
        "Progress updated: " ++ "start" ++ " for module " ++ module_id) := by
    unfold update_user_progress
    rw [if_neg (by decide), if_pos rfl]
  exact ⟨h, by rw [h], by rw [h], by rw [h], by rw [h], by rw [h], by rw [h],
    by rw [h], by rw [h], by rw [h], by rw [h], by rw [h]⟩

/-- C7: for every module id and every action string — including actions
other than `"start"` and `"complete"` — `update_user_progress` returns
the human-readable confirmation string and does not raise; an unknown
action still appends exactly one session-history entry
`{timestamp, module, action}` and the whole document is persisted. The
nonempty-module-table hypothesis records the one exception the total
model cannot exhibit: with an empty `config['modules']` the `"complete"`
branch would raise `ZeroDivisionError` in Python. -/
theorem update_unknown_action_recorded (cfg : Config) (now : String)
    (p : Progress) (module_id action : String) (_hcfg : cfg.modules ≠ []) :
    (update_user_progress cfg now p module_id action).2 =
      "Progress updated: " ++ action ++ " for module " ++ module_id ∧
    (action ≠ "complete" → action ≠ "start" →
      (update_user_progress cfg now p module_id action).1 =
        { p with session_history :=
            p.session_history ++ [⟨now, module_id, action⟩] }) ∧
    save_user_progress
        ((update_user_progress cfg now p module_id action).1.toJson) =
      some ((update_user_progress cfg now p module_id action).1.toJson) := by
  refine ⟨rfl, ?_, rfl⟩
  intro h1 h2
  unfold update_user_progress
  rw [if_neg h1, if_neg h2]

/-- Witness for `update_unknown_action_recorded`: the unknown action
`"pause"` on the sample configuration and the default progress record. -/
theorem update_unknown_action_recorded_witness :
    (update_user_progress SAMPLE_MODULE_CONFIG "t0" default_user_progress
        "m1" "pause").2 =
      "Progress updated: " ++ "pause" ++ " for module " ++ "m1" ∧
    ("pause" ≠ "complete" → "pause" ≠ "start" →
      (update_user_progress SAMPLE_MODULE_CONFIG "t0" default_user_progress
          "m1" "pause").1 =
        { default_user_progress with session_history :=
            default_user_progress.session_history ++ [⟨"t0", "m1", "pause"⟩] }) ∧
    save_user_progress
        ((update_user_progress SAMPLE_MODULE_CONFIG "t0" default_user_progress
          "m1" "pause").1.toJson) =
      some ((update_user_progress SAMPLE_MODULE_CONFIG "t0"
        default_user_progress "m1" "pause").1.toJson) :=
  update_unknown_action_recorded SAMPLE_MODULE_CONFIG "t0"
    default_user_progress "m1" "pause" (by decide)

/-! ### Claims C5 and C6: the progress store -/

theorem optStrToJson_inj : Function.Injective optStrToJson := by
  intro a b h
  cases a <;> cases b <;> simp [optStrToJson] at h <;> simp [h]

theorem json_str_inj : Function.Injective Json.str :=
  fun _ _ h => Json.str.inj h

theorem sessionEntry_toJson_inj : Function.Injective SessionEntry.toJson := by
  intro e1 e2 h
  cases e1
  cases e2
  simp only [SessionEntry.toJson, Json.obj.injEq, List.cons.injEq,
    Prod.mk.injEq, Json.str.injEq, true_and, and_true] at h
  simp_all

theorem preferences_toJson_inj : Function.Injective Preferences.toJson := by
  intro p1 p2 h
  cases p1
  cases p2
  simp only [Preferences.toJson, Json.obj.injEq, List.cons.injEq,
    Prod.mk.injEq, Json.str.injEq, Json.arr.injEq, Json.bool.injEq,
    true_and, and_true] at h
  obtain ⟨h1, h2, h3⟩ := h
  simp_all [List.map_injective_iff.mpr json_str_inj h2]

theorem progress_toJson_inj : Function.Injective Progress.toJson := by
  intro p q h
  cases p
  cases q
  simp only [Progress.toJson, Json.obj.injEq, List.cons.injEq,
    Prod.mk.injEq, Json.num.injEq, Json.str.injEq, Json.arr.injEq,
    true_and, and_true] at h
  obtain ⟨h1, h2, h3, h4, h5, h6, h7, h8, h9, h10, h11⟩ := h
  simp only [Progress.mk.injEq]
  exact ⟨optStrToJson_inj h1,
    List.map_injective_iff.mpr json_str_inj h2, h3,
    List.map_injective_iff.mpr json_str_inj h4, h5, h6, h7,
    preferences_toJson_inj h8,
    List.map_injective_iff.mpr sessionEntry_toJson_inj h9, h10, h11⟩

/-- C5: saving a well-formed progress record and loading it back yields
the same document, field for field: `load(save(p)) = p` at the document
level, and distinct records never serialize to the same document, so
every field of `p` is recovered exactly. -/
theorem save_load_roundtrip (p : Progress) :
    load_user_progress (save_user_progress p.toJson) = p.toJson ∧
    ∀ q : Progress, q.toJson = p.toJson → q = p :=
  ⟨rfl, fun _ h => progress_toJson_inj h⟩

/-- Witness for `save_load_roundtrip`: the default progress record, with
the equality hypothesis of the second conjunct discharged at `q :=
default_user_progress`. -/
theorem save_load_roundtrip_witness :
    load_user_progress (save_user_progress default_user_progress.toJson) =
      default_user_progress.toJson ∧
    default_user_progress = default_user_progress :=
  ⟨(save_load_roundtrip default_user_progress).1,
   (save_load_roundtrip default_user_progress).2 default_user_progress rfl⟩

/-- C6: when the progress document is missing or unreadable (`none` file
state, which the bare `except:` of the source maps every read failure
to), `load_user_progress` returns the hardcoded default record:
`completed_modules = []`, `current_progress = 0`,
`current_module = null`, all other collections empty, and
`preferences.difficulty_level = "intermediate"`. -/
theorem load_missing_returns_default :
    load_user_progress none = default_user_progress.toJson ∧
    default_user_progress.current_module = none ∧
    default_user_progress.completed_modules = [] ∧
    default_user_progress.current_progress = 0 ∧
    default_user_progress.skills_acquired = [] ∧
    default_user_progress.assessments_completed = [] ∧
    default_user_progress.hands_on_projects = [] ∧
    default_user_progress.session_history = [] ∧
    default_user_progress.bookmarks = [] ∧
    default_user_progress.notes = [] ∧
    default_user_progress.preferences.difficulty_level = "intermediate" :=
  ⟨rfl, rfl, rfl, rfl, rfl, rfl, rfl, rfl, rfl, rfl, rfl⟩
